import Mathlib

/-!
Verification of the sleep-aid ambient-audio controller of the SleepTracker
repository.

The repository contains two implementations of the controller:
* `src/lib/sleep-aid-audio-controller.ts` (class `SleepAidAudioController`),
  modelled below with the `lib` prefix;
* `src/unnamed/part_003` (a second `SleepAidAudioController` variant with an
  explicit `disposed` / `finalFadeStarted` flag), modelled with the `p3`
  prefix.

Both are single-threaded (one JS event loop); concurrency comes only from
interleaved timer callbacks and media status callbacks.  Each public
operation is modelled run-to-completion (its internal awaited fades run to
the end inside the operation), matching the claims' execution model.  The
asynchronous pieces that genuinely outlive an operation are modelled as
separate steps:
* the countdown interval body (`tick`),
* the media status callback (`statusUpdate`) and the asynchronous completion
  of a loop-restart reseek (`reseekComplete`) — a ghost counter
  `seekInFlight` counts reseeks that have been initiated but whose
  asynchronous completion has not yet run;
* in the `p3` variant the final fade triggered by the countdown is *not*
  awaited by the tick (fire-and-forget), so it is modelled as an in-flight
  flag `fadeOn` set at initiation plus a `fadeComplete` step; its
  intermediate gain writes are abstracted to the initiation event and the
  final gain, since no claim observes them.

Device calls (load / play / pause / stop / seek / unload / set-volume) are
recorded as events; loaded resource handles live in a small device
environment (`DevEnv`) carried through the state, so "how many handles are
alive" is a function of the state.
-/

/-- Events: device calls made by the controller plus its outward callbacks. -/
inductive Ev where
  | createSound (h : Nat) (src : Nat) (vol : Rat)
  | unload (h : Nat)
  | playDev (h : Nat)
  | pauseDev (h : Nat)
  | stopDev (h : Nat)
  | setPos (h : Nat) (ms : Int)
  | setVol (h : Nat) (v : Rat)
  | fadeStart (target : Rat) (durationMs : Int)
  | remaining (secs : Int)
  | playState (playing paused : Bool)
  | onError (msg : String)
deriving Repr, DecidableEq

/-- Is an event a resource creation (`Audio.Sound.createAsync`)? -/
def Ev.isCreate : Ev → Bool
  | .createSound _ _ _ => true
  | _ => false

/-- The media backend: a fresh-handle counter and the list of currently
loaded (not yet unloaded) resource handles. -/
structure DevEnv where
  nextId : Nat
  loaded : List Nat
deriving Repr, DecidableEq

/-- Allocate and load a fresh sound handle. -/
def DevEnv.create (e : DevEnv) : Nat × DevEnv :=
  (e.nextId, { nextId := e.nextId + 1, loaded := e.loaded ++ [e.nextId] })

/-- Unload a handle (idempotent on the device side). -/
def DevEnv.unload (e : DevEnv) (h : Nat) : DevEnv :=
  { e with loaded := e.loaded.erase h }

/-- `Math.max(0, Math.min(1, x))` from `fadeTo` in the lib controller. -/
def clamp01 (x : Rat) : Rat := max 0 (min 1 x)

/-- The gain commanded at step `k` of an `n`-step fade from `s` to `t`:
`startVolume + (targetVolume - startVolume) * (currentStep / steps)`,
shared by `fadeTo` (lib) and `fadeMasterTo` (part_003). -/
def fadeGain (s t : Rat) (n k : Nat) : Rat :=
  s + (t - s) * ((k : Rat) / (n : Rat))

/-- `Math.max(1, Math.round(durationMs / 100))`: step count of the lib
controller's `fadeTo`. -/
def libFadeSteps (durMs : Nat) : Nat := max 1 ((durMs + 50) / 100)

/-- Outcome of the fallible device calls inside `start`: everything
succeeds, the load (`Audio.setAudioModeAsync` / `Audio.Sound.createAsync`)
rejects, or the subsequent `playAsync` rejects.  In a branch that performs
no load, `loadFails` has nothing to fail and the branch proceeds. -/
inductive Outcome where
  | ok
  | loadFails
  | playFails
deriving Repr, DecidableEq

/-! ## The `src/lib/sleep-aid-audio-controller.ts` controller -/

/-- State of the lib controller: its private fields plus the device
environment and the `seekInFlight` ghost counter (initiated loop reseeks
whose asynchronous completion has not run yet). -/
structure LibState where
  env : DevEnv
  sound : Option Nat
  countdownOn : Bool
  fadeOn : Bool
  loopSeekInProgress : Bool
  seekInFlight : Nat
  isPlaying : Bool
  isPaused : Bool
  remainingSeconds : Int
  targetVolume : Rat
  deviceVolume : Rat
deriving Repr, DecidableEq

/-- Fresh lib controller (field initializers of the class). -/
def libInit : LibState :=
  { env := { nextId := 0, loaded := [] }
    sound := none
    countdownOn := false
    fadeOn := false
    loopSeekInProgress := false
    seekInFlight := 0
    isPlaying := false
    isPaused := false
    remainingSeconds := 0
    targetVolume := 3 / 5
    deviceVolume := 0 }

/-- Error message surfaced by the lib controller's `start` catch block. -/
def libLoadErrorMsg : String :=
  "Audio failed to load. Please choose another sound and try again."

/-- The volume events sent by one run of `fadeTo`: each step sends
`Math.max(0, Math.min(1, nextVolume))` to `setVolumeAsync`. -/
def libFadeEvents (h : Nat) (s t : Rat) (n : Nat) : List Ev :=
  (List.range n).map fun k => Ev.setVol h (clamp01 (fadeGain s t n (k + 1)))

/-- `fadeTo(targetVolume, durationMs)`: returns immediately when no sound is
loaded; otherwise clears any running fade, reads the device volume and ramps
it in `libFadeSteps durMs` clamped steps, clearing the fade timer when done. -/
def libFadeTo (st : LibState) (t : Rat) (durMs : Nat) : LibState × List Ev :=
  match st.sound with
  | none => (st, [])
  | some h =>
    let n := libFadeSteps durMs
    let s0 := st.deviceVolume
    ({ st with fadeOn := false, deviceVolume := clamp01 (fadeGain s0 t n n) },
      libFadeEvents h s0 t n)

/-- The private `stop({withFade, fadeDurationMs, resetTimer})`. -/
def libStop (wf : Bool) (fadeMs : Nat) (reset : Bool) (st : LibState) :
    LibState × List Ev :=
  let st1 := { st with countdownOn := false }
  let p1 := if wf then libFadeTo st1 0 fadeMs else (st1, [])
  let p2 :=
    match p1.1.sound with
    | some h =>
      ({ p1.1 with sound := none, env := p1.1.env.unload h },
        [Ev.setPos h 0, Ev.stopDev h, Ev.unload h])
    | none => (p1.1, [])
  let st3 := { p2.1 with fadeOn := false, loopSeekInProgress := false,
                         seekInFlight := 0, isPlaying := false, isPaused := false }
  let p3 :=
    if reset then ({ st3 with remainingSeconds := 0 }, [Ev.remaining 0])
    else (st3, [])
  (p3.1, p1.2 ++ p2.2 ++ p3.2 ++ [Ev.playState false false])

/-- `start({source, durationSeconds, targetVolume})` with an explicit
failure outcome for the awaited device calls. -/
def libStart (src : Nat) (d : Int) (tv : Rat) (oc : Outcome) (st : LibState) :
    LibState × List Ev :=
  let p0 := libStop false 5000 false st
  let st1 := { p0.1 with remainingSeconds := d, targetVolume := tv }
  let e0 := p0.2 ++ [Ev.remaining d]
  match oc with
  | .loadFails =>
    let p2 := libStop false 5000 true st1
    (p2.1, e0 ++ [Ev.onError libLoadErrorMsg] ++ p2.2)
  | .playFails =>
    let c := st1.env.create
    let st2 := { st1 with sound := some c.1, deviceVolume := 0, env := c.2 }
    let p2 := libStop false 5000 true st2
    (p2.1, e0 ++ [Ev.createSound c.1 src 0, Ev.onError libLoadErrorMsg] ++ p2.2)
  | .ok =>
    let c := st1.env.create
    let st2 := { st1 with sound := some c.1, deviceVolume := 0, env := c.2,
                          isPlaying := true, isPaused := false, countdownOn := true }
    let pf := libFadeTo st2 st2.targetVolume 3000
    (pf.1, e0 ++ [Ev.createSound c.1 src 0, Ev.playDev c.1,
                  Ev.playState true false] ++ pf.2)

/-- Public `stopManual()`: faded stop over `MANUAL_STOP_FADE_MS`. -/
def libStopManual (st : LibState) : LibState × List Ev :=
  libStop true 5000 true st

/-- Public `dispose()`: unconditional non-faded stop with timer reset. -/
def libDispose (st : LibState) : LibState × List Ev :=
  libStop false 5000 true st

/-- `pause()`: no-op unless a sound is loaded, playing and not paused. -/
def libPause (st : LibState) : LibState × List Ev :=
  match st.sound with
  | none => (st, [])
  | some h =>
    if st.isPlaying ∧ ¬st.isPaused then
      ({ st with countdownOn := false, isPaused := true },
        [Ev.pauseDev h, Ev.playState st.isPlaying true])
    else (st, [])

/-- `resume()`: no-op unless a sound is loaded, playing and paused. -/
def libResume (st : LibState) : LibState × List Ev :=
  match st.sound with
  | none => (st, [])
  | some h =>
    if st.isPlaying ∧ st.isPaused then
      ({ st with isPaused := false, countdownOn := true },
        [Ev.playDev h, Ev.playState st.isPlaying false])
    else (st, [])

/-- `setDurationSeconds(durationSeconds)`. -/
def libSetDuration (d : Int) (st : LibState) : LibState × List Ev :=
  let st1 := { st with remainingSeconds := d }
  if st1.isPlaying ∧ ¬st1.isPaused then
    ({ st1 with countdownOn := true }, [Ev.remaining d])
  else (st1, [Ev.remaining d])

/-- `setTargetVolume(volume)`: stores the target; applies it directly to
the device only while playing un-paused with a loaded sound. -/
def libSetTargetVolume (v : Rat) (st : LibState) : LibState × List Ev :=
  let st1 := { st with targetVolume := v }
  match st1.sound with
  | some h =>
    if st1.isPlaying ∧ ¬st1.isPaused then
      ({ st1 with deviceVolume := v }, [Ev.setVol h v])
    else (st1, [])
  | none => (st1, [])

/-- One firing of the countdown interval body (fires only while the
countdown timer is installed; the body returns early while paused). -/
def libTick (st : LibState) : LibState × List Ev :=
  if ¬st.countdownOn then (st, [])
  else if st.isPaused then (st, [])
  else
    let r := max 0 (st.remainingSeconds - 1)
    let st1 := { st with remainingSeconds := r }
    if r ≤ 0 then
      let p := libStop true 8000 true st1
      (p.1, Ev.remaining r :: p.2)
    else (st1, [Ev.remaining r])

/-- `handleStatusUpdate(status)`: the loop-masking status callback.  Both
reseek paths set `loopSeekInProgress` before issuing the reseek; the ghost
counter records the reseek as in flight until `libReseekComplete`. -/
def libStatusUpdate (isLoaded dj : Bool) (pos : Int) (dur : Option Int)
    (st : LibState) : LibState × List Ev :=
  if ¬isLoaded then (st, [])
  else
    match st.sound with
    | none => (st, [])
    | some h =>
      if ¬st.isPlaying ∨ st.isPaused ∨ st.loopSeekInProgress then (st, [])
      else if dj then
        ({ st with loopSeekInProgress := true, seekInFlight := st.seekInFlight + 1 },
          [Ev.setPos h 0])
      else
        let duration := dur.getD 0
        if duration ≤ 0 then (st, [])
        else if duration - pos ≤ 120 then
          ({ st with loopSeekInProgress := true, seekInFlight := st.seekInFlight + 1 },
            [Ev.setPos h 0])
        else (st, [])

/-- Asynchronous completion of a loop reseek: the `.then` replays the sound
(if still present) and the `.finally` clears the latch.  `stop` having
nulled the sound cancels the pending continuation (`this.sound?.playAsync`),
which `libStop` models by zeroing the ghost counter. -/
def libReseekComplete (st : LibState) : LibState × List Ev :=
  if st.loopSeekInProgress then
    ({ st with loopSeekInProgress := false, seekInFlight := st.seekInFlight - 1 },
      match st.sound with
      | some h => [Ev.playDev h]
      | none => [])
  else (st, [])

/-- The operations a caller / the event loop can apply to the lib controller. -/
inductive LibOp where
  | start (src : Nat) (d : Int) (tv : Rat) (oc : Outcome)
  | stopManual
  | pause
  | resume
  | dispose
  | setDuration (d : Int)
  | setTargetVolume (v : Rat)
  | tick
  | statusUpdate (isLoaded dj : Bool) (pos : Int) (dur : Option Int)
  | reseekComplete
deriving Repr, DecidableEq

/-- Step function of the lib controller. -/
def libStep (st : LibState) : LibOp → LibState × List Ev
  | .start src d tv oc => libStart src d tv oc st
  | .stopManual => libStopManual st
  | .pause => libPause st
  | .resume => libResume st
  | .dispose => libDispose st
  | .setDuration d => libSetDuration d st
  | .setTargetVolume v => libSetTargetVolume v st
  | .tick => libTick st
  | .statusUpdate l dj p du => libStatusUpdate l dj p du st
  | .reseekComplete => libReseekComplete st

/-- Run a sequence of operations, keeping only the state. -/
def libRunS (st : LibState) (ops : List LibOp) : LibState :=
  ops.foldl (fun s o => (libStep s o).1) st

/-! ## The `src/unnamed/part_003` controller variant -/

/-- State of the part_003 controller: its private fields (including the
emitted `SleepAidAudioState` mirror `st*`), the device environment, the
background-final-fade flag `fadeOn` and the `seekInFlight` ghost counter. -/
structure P3State where
  env : DevEnv
  activeSound : Option Nat
  fadeOn : Bool
  countdownOn : Bool
  stIsPlaying : Bool
  stIsLoading : Bool
  stRemaining : Int
  stError : String
  disposed : Bool
  finalFadeStarted : Bool
  currentVolume : Rat
  targetVolume : Rat
  currentSource : Option Nat
  seekInFlight : Nat
deriving Repr, DecidableEq

/-- Fresh part_003 controller (field initializers of the class). -/
def p3Init : P3State :=
  { env := { nextId := 0, loaded := [] }
    activeSound := none
    fadeOn := false
    countdownOn := false
    stIsPlaying := false
    stIsLoading := false
    stRemaining := 0
    stError := ""
    disposed := false
    finalFadeStarted := false
    currentVolume := 0
    targetVolume := 7 / 10
    currentSource := none
    seekInFlight := 0 }

/-- Error message emitted by the part_003 `start` catch block. -/
def p3LoadErrorMsg : String := "Audio failed to load. Please try another sound."

/-- The 22 volume events sent by one awaited run of `fadeMasterTo`
(`next = from + (target - from) * (step / steps)`, `steps = 22`, unclamped). -/
def p3FadeEvents (h : Nat) (s t : Rat) : List Ev :=
  (List.range 22).map fun k => Ev.setVol h (fadeGain s t 22 (k + 1))

/-- An *awaited* `fadeMasterTo(target, durationMs)`: with no sound it only
records the target as the current volume; otherwise it supersedes any
running fade, ramps `currentVolume` from its present value to `target` in
22 steps, and clears the fade timer on completion. -/
def p3Fade (st : P3State) (t : Rat) (durMs : Int) : P3State × List Ev :=
  match st.activeSound with
  | none => ({ st with currentVolume := t }, [])
  | some h =>
    ({ st with fadeOn := false, currentVolume := fadeGain st.currentVolume t 22 22 },
      Ev.fadeStart t durMs :: p3FadeEvents h st.currentVolume t)

/-- `startCountdown(durationSeconds)`: restart the countdown, clear the
final-fade flag, publish the new remaining time. -/
def p3StartCountdown (d : Int) (st : P3State) : P3State :=
  { st with countdownOn := true, finalFadeStarted := false, stRemaining := d }

/-- `stop(withFade)`. -/
def p3Stop (wf : Bool) (st : P3State) : P3State × List Ev :=
  let st1 := { st with countdownOn := false, finalFadeStarted := false }
  match st1.activeSound with
  | none =>
    ({ st1 with stIsPlaying := false, stRemaining := 0, stIsLoading := false }, [])
  | some h =>
    let p1 := if wf then p3Fade st1 0 2200 else (st1, [])
    ({ p1.1 with activeSound := none, currentSource := none, fadeOn := false,
                 currentVolume := 0, env := p1.1.env.unload h,
                 stIsPlaying := false, stRemaining := 0, stIsLoading := false },
      p1.2 ++ [Ev.stopDev h, Ev.unload h])

/-- One firing of the part_003 countdown interval body.  The final fade it
triggers is *not awaited* (fire-and-forget): the model records its
initiation (`fadeStart 0 (next*1000)` and `fadeOn := true`) and abstracts
its step-by-step gain writes; `p3FadeComplete` is its completion. -/
def p3Tick (st : P3State) : P3State × List Ev :=
  if ¬st.countdownOn then (st, [])
  else
    let next := st.stRemaining - 1
    if next ≤ 0 then
      p3Stop false { st with stRemaining := 0 }
    else
      let p1 :=
        if next ≤ 8 ∧ ¬st.finalFadeStarted then
          match st.activeSound with
          | some _ =>
            ({ st with finalFadeStarted := true, fadeOn := true },
              [Ev.fadeStart 0 (next * 1000)])
          | none => ({ st with finalFadeStarted := true, currentVolume := 0 }, [])
        else (st, [])
      ({ p1.1 with stRemaining := next }, p1.2)

/-- Completion of the background final fade (its target is always 0). -/
def p3FadeComplete (st : P3State) : P3State × List Ev :=
  if st.fadeOn then ({ st with fadeOn := false, currentVolume := 0 }, [])
  else (st, [])

/-- `pause()`: no-op unless a sound is loaded and playing. -/
def p3Pause (st : P3State) : P3State × List Ev :=
  match st.activeSound with
  | none => (st, [])
  | some h =>
    if st.stIsPlaying then
      let st1 := { st with countdownOn := false }
      let p1 := p3Fade st1 0 900
      ({ p1.1 with stIsPlaying := false }, p1.2 ++ [Ev.pauseDev h])
    else (st, [])

/-- `resume()`: no-op unless a sound is loaded and not playing. -/
def p3Resume (st : P3State) : P3State × List Ev :=
  match st.activeSound with
  | none => (st, [])
  | some h =>
    if st.stIsPlaying then (st, [])
    else
      let p1 := p3Fade st st.targetVolume 1200
      let st2 : P3State := { p1.1 with stIsPlaying := true }
      let st3 := if st2.stRemaining > 0 then p3StartCountdown st2.stRemaining st2 else st2
      (st3, Ev.playDev h :: p1.2)

/-- `setVolume(targetVolume)`: stores the target; with no sound it only
updates the shadow volume, otherwise it writes the device directly, fade-free. -/
def p3SetVolume (v : Rat) (st : P3State) : P3State × List Ev :=
  let st1 := { st with targetVolume := v }
  match st1.activeSound with
  | none => ({ st1 with currentVolume := v }, [])
  | some h => ({ st1 with currentVolume := v }, [Ev.setVol h v])

/-- `resetTimer(durationSeconds)`. -/
def p3ResetTimer (d : Int) (st : P3State) : P3State × List Ev :=
  if ¬st.stIsPlaying ∧ st.activeSound = none then (st, [])
  else
    let p1 :=
      if st.finalFadeStarted ∧ st.targetVolume > 0 then p3Fade st st.targetVolume 1200
      else (st, [])
    (p3StartCountdown d p1.1, p1.2)

/-- `dispose()`: terminal teardown; sets the permanent `disposed` latch. -/
def p3Dispose (st : P3State) : P3State × List Ev :=
  let st1 := { st with disposed := true, fadeOn := false, countdownOn := false }
  match st1.activeSound with
  | some h =>
    ({ st1 with activeSound := none, env := st1.env.unload h }, [Ev.unload h])
  | none => (st1, [])

/-- `handlePlaybackStatus(status)`: the part_003 loop-masking callback.  It
has no seek-in-progress latch: every `didJustFinish` signal initiates a
reseek.  The ghost counter counts reseeks initiated but not yet completed. -/
def p3StatusUpdate (isLoaded dj : Bool) (st : P3State) : P3State × List Ev :=
  if st.disposed ∨ ¬isLoaded then (st, [])
  else
    match st.activeSound with
    | none => (st, [])
    | some h =>
      if dj then ({ st with seekInFlight := st.seekInFlight + 1 }, [Ev.setPos h 0])
      else (st, [])

/-- Asynchronous completion of a part_003 reseek (`playAsync` after the
`setPositionAsync`). -/
def p3ReseekComplete (st : P3State) : P3State × List Ev :=
  if st.seekInFlight > 0 then
    ({ st with seekInFlight := st.seekInFlight - 1 },
      match st.activeSound with
      | some h => [Ev.playDev h]
      | none => [])
  else (st, [])

/-- `start({source, durationSeconds, targetVolume})`.  Branches exactly as
the source: build when no sound is held, unload-then-build when the source
changed, rewind-and-reuse otherwise.  On a rejected load the catch block
runs with the (possibly stale) `activeSound` untouched; on a rejected play
the freshly built or reused sound is retained. -/
def p3Start (src : Nat) (d : Int) (tv : Rat) (oc : Outcome) (st : P3State) :
    P3State × List Ev :=
  if st.disposed then (st, [])
  else
    let st1 := { st with stIsLoading := true, stError := "", targetVolume := tv }
    let sourceChanged := st1.currentSource ≠ some src
    let catchSt := fun (s : P3State) =>
      { s with stIsLoading := false, stIsPlaying := false, stError := p3LoadErrorMsg }
    let continue_ := fun (s : P3State) (h : Nat) (ev : List Ev) =>
      let s2 := { s with currentSource := some src, currentVolume := 0 }
      if oc = Outcome.playFails then (catchSt s2, ev)
      else
        let pf := p3Fade s2 tv 2800
        let s3 := { pf.1 with stIsPlaying := true, stIsLoading := false }
        (p3StartCountdown d s3, ev ++ [Ev.playDev h] ++ pf.2)
    match st1.activeSound with
    | none =>
      if oc = Outcome.loadFails then (catchSt st1, [])
      else
        let c := st1.env.create
        let st2 := { st1 with activeSound := some c.1, env := c.2 }
        continue_ st2 c.1 [Ev.createSound c.1 src 0]
    | some h0 =>
      if sourceChanged then
        let st2 := { st1 with env := st1.env.unload h0 }
        let ev0 := [Ev.stopDev h0, Ev.unload h0]
        if oc = Outcome.loadFails then (catchSt st2, ev0)
        else
          let c := st2.env.create
          let st3 := { st2 with activeSound := some c.1, env := c.2 }
          continue_ st3 c.1 (ev0 ++ [Ev.createSound c.1 src 0])
      else
        continue_ st1 h0 [Ev.stopDev h0, Ev.setPos h0 0]

/-- The operations a caller / the event loop can apply to the part_003
controller. -/
inductive P3Op where
  | start (src : Nat) (d : Int) (tv : Rat) (oc : Outcome)
  | stop (wf : Bool)
  | pause
  | resume
  | dispose
  | resetTimer (d : Int)
  | setVolume (v : Rat)
  | tick
  | statusUpdate (isLoaded dj : Bool)
  | reseekComplete
  | fadeComplete
deriving Repr, DecidableEq

/-- Step function of the part_003 controller. -/
def p3Step (st : P3State) : P3Op → P3State × List Ev
  | .start src d tv oc => p3Start src d tv oc st
  | .stop wf => p3Stop wf st
  | .pause => p3Pause st
  | .resume => p3Resume st
  | .dispose => p3Dispose st
  | .resetTimer d => p3ResetTimer d st
  | .setVolume v => p3SetVolume v st
  | .tick => p3Tick st
  | .statusUpdate l dj => p3StatusUpdate l dj st
  | .reseekComplete => p3ReseekComplete st
  | .fadeComplete => p3FadeComplete st

/-- Run a sequence of operations, keeping only the state. -/
def p3RunS (st : P3State) (ops : List P3Op) : P3State :=
  ops.foldl (fun s o => (p3Step s o).1) st

/-! ## Invariants of the lib controller -/

/-- Resource/latch invariant of the lib controller: the loaded device
handles are exactly the stored one, and the ghost in-flight reseek counter
mirrors the `loopSeekInProgress` latch. -/
def LibInv (st : LibState) : Prop :=
  st.env.loaded = st.sound.toList ∧
  st.seekInFlight = (if st.loopSeekInProgress then 1 else 0)

instance : DecidablePred LibInv := fun st => by
  unfold LibInv; infer_instance

theorem libInv_init : LibInv libInit := by
  constructor <;> rfl

theorem libStop_spec (wf : Bool) (ms : Nat) (reset : Bool) (st : LibState) :
    (libStop wf ms reset st).1.sound = none ∧
    (libStop wf ms reset st).1.countdownOn = false ∧
    (libStop wf ms reset st).1.fadeOn = false ∧
    (libStop wf ms reset st).1.loopSeekInProgress = false ∧
    (libStop wf ms reset st).1.seekInFlight = 0 ∧
    (libStop wf ms reset st).1.isPlaying = false ∧
    (libStop wf ms reset st).1.isPaused = false ∧
    (reset = true → (libStop wf ms reset st).1.remainingSeconds = 0) ∧
    (st.env.loaded = st.sound.toList → (libStop wf ms reset st).1.env.loaded = []) := by
  cases wf <;> cases reset <;> rcases hs : st.sound with _ | h <;>
    simp [libStop, libFadeTo, DevEnv.unload, hs] <;> tauto

theorem libStop_inv (wf : Bool) (ms : Nat) (reset : Bool) (st : LibState)
    (hI : LibInv st) : LibInv (libStop wf ms reset st).1 := by
  obtain ⟨h1, h2, h3, h4, h5, -, -, -, h9⟩ := libStop_spec wf ms reset st
  exact ⟨by rw [h1, h9 hI.1]; rfl, by simp [h5, h4]⟩

theorem libFadeTo_inv (st : LibState) (t : Rat) (d : Nat) (hI : LibInv st) :
    LibInv (libFadeTo st t d).1 := by
  rcases hs : st.sound with _ | h <;>
    simp only [libFadeTo, hs] <;>
    exact ⟨by simpa [hs] using hI.1, by simpa using hI.2⟩

theorem libInv_step (st : LibState) (o : LibOp) (hI : LibInv st) :
    LibInv (libStep st o).1 := by
  cases o with
  | start src d tv oc =>
    have inv0 := libStop_inv false 5000 false st hI
    have hs0 := (libStop_spec false 5000 false st).1
    show LibInv (libStart src d tv oc st).1
    cases oc with
    | loadFails =>
      simp only [libStart]
      exact libStop_inv false 5000 true _ ⟨inv0.1, inv0.2⟩
    | playFails =>
      simp only [libStart]
      refine libStop_inv false 5000 true _ ⟨?_, inv0.2⟩
      simp [DevEnv.create, inv0.1, hs0]
    | ok =>
      simp only [libStart]
      refine libFadeTo_inv _ _ _ ⟨?_, inv0.2⟩
      simp [DevEnv.create, inv0.1, hs0]
  | stopManual => exact libStop_inv true 5000 true st hI
  | dispose => exact libStop_inv false 5000 true st hI
  | pause =>
    show LibInv (libPause st).1
    rcases hs : st.sound with _ | h <;> simp only [libPause, hs]
    · exact hI
    · split
      · exact ⟨by simpa [hs] using hI.1, by simpa using hI.2⟩
      · exact hI
  | resume =>
    show LibInv (libResume st).1
    rcases hs : st.sound with _ | h <;> simp only [libResume, hs]
    · exact hI
    · split
      · exact ⟨by simpa [hs] using hI.1, by simpa using hI.2⟩
      · exact hI
  | setDuration d =>
    show LibInv (libSetDuration d st).1
    simp only [libSetDuration]
    split <;> exact ⟨by simpa using hI.1, by simpa using hI.2⟩
  | setTargetVolume v =>
    show LibInv (libSetTargetVolume v st).1
    rcases hs : st.sound with _ | h <;> simp only [libSetTargetVolume, hs]
    · exact ⟨by simpa [hs] using hI.1, by simpa using hI.2⟩
    · split <;> exact ⟨by simpa [hs] using hI.1, by simpa using hI.2⟩
  | tick =>
    show LibInv (libTick st).1
    simp only [libTick]
    split
    · exact hI
    · split
      · exact hI
      · split
        · exact libStop_inv true 8000 true _ ⟨by simpa using hI.1, by simpa using hI.2⟩
        · exact ⟨by simpa using hI.1, by simpa using hI.2⟩
  | statusUpdate l dj p du =>
    show LibInv (libStatusUpdate l dj p du st).1
    simp only [libStatusUpdate]
    split
    · exact hI
    · rcases hs : st.sound with _ | h <;> simp only [hs]
      · exact hI
      · split
        · exact hI
        · rename_i hcond
          have hlatch : st.loopSeekInProgress = false := by
            rcases hlp : st.loopSeekInProgress <;> simp [hlp] at hcond ⊢
          have hifz : st.seekInFlight = 0 := by simpa [hlatch] using hI.2
          split
          · exact ⟨by simpa [hs] using hI.1, by simp [hifz]⟩
          · split
            · exact hI
            · split
              · exact ⟨by simpa [hs] using hI.1, by simp [hifz]⟩
              · exact hI
  | reseekComplete =>
    show LibInv (libReseekComplete st).1
    simp only [libReseekComplete]
    split
    · rename_i hlp
      have hif1 : st.seekInFlight = 1 := by simpa [hlp] using hI.2
      exact ⟨by simpa using hI.1, by simp [hif1]⟩
    · exact hI

theorem libInv_runFrom (ops : List LibOp) (st : LibState) (hI : LibInv st) :
    LibInv (libRunS st ops) := by
  induction ops generalizing st with
  | nil => exact hI
  | cons o rest ih => exact ih _ (libInv_step st o hI)

theorem libInv_run (ops : List LibOp) : LibInv (libRunS libInit ops) :=
  libInv_runFrom ops libInit libInv_init

/-! ## Invariants of the part_003 controller -/

/-- Resource invariant of the part_003 controller: the loaded device
handles are at most the stored one (after a failed reload the stored
reference may be stale, i.e. already unloaded), and a background final
fade only runs while a sound is held. -/
def P3Inv (st : P3State) : Prop :=
  (st.env.loaded = [] ∨ st.env.loaded = st.activeSound.toList) ∧
  (st.fadeOn = true → st.activeSound ≠ none)

instance : DecidablePred P3Inv := fun st => by
  unfold P3Inv; infer_instance

theorem p3Inv_init : P3Inv p3Init :=
  ⟨Or.inl rfl, by simp [p3Init]⟩

theorem p3Fade_inv (st : P3State) (t : Rat) (d : Int) (hI : P3Inv st) :
    P3Inv (p3Fade st t d).1 := by
  obtain ⟨hL, hF⟩ := hI
  rcases hs : st.activeSound with _ | h
  · have hfo : st.fadeOn = false := by
      cases hfo : st.fadeOn
      · rfl
      · exact absurd hs (hF hfo)
    simp only [p3Fade, hs]
    constructor
    · simpa [hs] using hL
    · simp [hfo]
  · simp only [p3Fade, hs]
    constructor
    · simpa [hs] using hL
    · simp

theorem p3Stop_spec (wf : Bool) (st : P3State) (hI : P3Inv st) :
    (p3Stop wf st).1.activeSound = none ∧
    (p3Stop wf st).1.countdownOn = false ∧
    (p3Stop wf st).1.fadeOn = false ∧
    (p3Stop wf st).1.finalFadeStarted = false ∧
    (p3Stop wf st).1.stIsPlaying = false ∧
    (p3Stop wf st).1.stIsLoading = false ∧
    (p3Stop wf st).1.stRemaining = 0 ∧
    (p3Stop wf st).1.env.loaded = [] := by
  obtain ⟨hL, hF⟩ := hI
  rcases hs : st.activeSound with _ | h
  · have hfo : st.fadeOn = false := by
      cases hfo : st.fadeOn
      · rfl
      · exact absurd hs (hF hfo)
    have hl : st.env.loaded = [] := by
      rcases hL with h1 | h1
      · exact h1
      · simpa [hs] using h1
    cases wf <;> simp [p3Stop, hs, hfo, hl]
  · have hl : st.env.loaded.erase h = [] := by
      rcases hL with h1 | h1
      · simp [h1]
      · simp [hs] at h1; simp [h1]
    cases wf <;> simp [p3Stop, p3Fade, DevEnv.unload, hs, hl]

theorem p3Stop_inv (wf : Bool) (st : P3State) (hI : P3Inv st) :
    P3Inv (p3Stop wf st).1 := by
  obtain ⟨-, -, h3, -, -, -, -, h8⟩ := p3Stop_spec wf st hI
  exact ⟨Or.inl h8, by simp [h3]⟩

theorem p3LoadedSome {st : P3State} {h : Nat}
    (hL : st.env.loaded = [] ∨ st.env.loaded = st.activeSound.toList)
    (hs : st.activeSound = some h) :
    st.env.loaded = [] ∨ st.env.loaded = [h] := by
  rcases hL with h1 | h1
  · exact Or.inl h1
  · rw [hs] at h1
    exact Or.inr (by simpa using h1)

theorem p3Inv_step (st : P3State) (o : P3Op) (hI : P3Inv st) :
    P3Inv (p3Step st o).1 := by
  obtain ⟨hL, hF⟩ := hI
  cases o with
  | start src d tv oc =>
    show P3Inv (p3Start src d tv oc st).1
    cases hd : st.disposed
    · rcases hs : st.activeSound with _ | h0
      · have hfo : st.fadeOn = false := by
          cases hfo : st.fadeOn
          · rfl
          · exact absurd hs (hF hfo)
        have hl : st.env.loaded = [] := by
          rcases hL with h1 | h1
          · exact h1
          · simpa [hs] using h1
        cases oc <;>
          simp [p3Start, P3Inv, hd, hs, hfo, hl, p3Fade, p3StartCountdown,
            DevEnv.create]
      · by_cases hch : st.currentSource = some src
        · cases oc <;>
            simp [p3Start, P3Inv, hd, hs, hch, p3Fade, p3StartCountdown] <;>
            simp_all
        · have hl : st.env.loaded.erase h0 = [] := by
            rcases hL with h1 | h1
            · simp [h1]
            · simp [hs] at h1; simp [h1]
          cases oc <;>
            simp [p3Start, P3Inv, hd, hs, hch, hl, p3Fade, p3StartCountdown,
              DevEnv.create, DevEnv.unload]
    · simp only [p3Start, hd]
      simp
      exact ⟨hL, hF⟩
  | stop wf => exact p3Stop_inv wf st ⟨hL, hF⟩
  | pause =>
    show P3Inv (p3Pause st).1
    rcases hs : st.activeSound with _ | h <;> simp only [p3Pause, p3Fade, hs]
    · exact ⟨hL, hF⟩
    · split
      · exact ⟨show st.env.loaded = [] ∨ st.env.loaded = [h] from
          p3LoadedSome hL hs, by simp⟩
      · exact ⟨hL, hF⟩
  | resume =>
    show P3Inv (p3Resume st).1
    rcases hs : st.activeSound with _ | h <;> simp only [p3Resume, hs]
    · exact ⟨hL, hF⟩
    · split
      · exact ⟨hL, hF⟩
      · simp only [p3Fade, hs, p3StartCountdown]
        split <;>
          exact ⟨show st.env.loaded = [] ∨ st.env.loaded = [h] from
            p3LoadedSome hL hs, by simp⟩
  | dispose =>
    show P3Inv (p3Dispose st).1
    rcases hs : st.activeSound with _ | h <;> simp only [p3Dispose, hs]
    · have hl : st.env.loaded = [] := by
        rcases hL with h1 | h1
        · exact h1
        · simpa [hs] using h1
      exact ⟨Or.inl hl, by simp⟩
    · have hl : st.env.loaded.erase h = [] := by
        rcases hL with h1 | h1
        · simp [h1]
        · simp [hs] at h1; simp [h1]
      exact ⟨Or.inl (by simpa [DevEnv.unload] using hl), by simp⟩
  | resetTimer d =>
    show P3Inv (p3ResetTimer d st).1
    have hFd := p3Fade_inv st st.targetVolume 1200 ⟨hL, hF⟩
    simp only [p3ResetTimer]
    split
    · exact ⟨hL, hF⟩
    · split
      · exact ⟨by simpa [p3StartCountdown] using hFd.1,
          by simpa [p3StartCountdown] using hFd.2⟩
      · exact ⟨by simpa [p3StartCountdown] using hL,
          by simpa [p3StartCountdown] using hF⟩
  | setVolume v =>
    show P3Inv (p3SetVolume v st).1
    rcases hs : st.activeSound with _ | h <;> simp only [p3SetVolume, hs]
    · have hl : st.env.loaded = [] := by
        rcases hL with h1 | h1
        · exact h1
        · simpa [hs] using h1
      exact ⟨Or.inl hl, fun hf => absurd hs (hF hf)⟩
    · exact ⟨show st.env.loaded = [] ∨ st.env.loaded = [h] from
        p3LoadedSome hL hs, by simp⟩
  | tick =>
    show P3Inv (p3Tick st).1
    simp only [p3Tick]
    split
    · exact ⟨hL, hF⟩
    · split
      · exact p3Stop_inv false _ ⟨by simpa using hL, by simpa using hF⟩
      · split
        · rcases hs : st.activeSound with _ | h <;> simp only [hs]
          · have hl : st.env.loaded = [] := by
              rcases hL with h1 | h1
              · exact h1
              · simpa [hs] using h1
            exact ⟨Or.inl hl, fun hf => absurd hs (hF hf)⟩
          · exact ⟨show st.env.loaded = [] ∨ st.env.loaded = [h] from
              p3LoadedSome hL hs, by simp [hs]⟩
        · exact ⟨hL, hF⟩
  | statusUpdate l dj =>
    show P3Inv (p3StatusUpdate l dj st).1
    simp only [p3StatusUpdate]
    split
    · exact ⟨hL, hF⟩
    · rcases hs : st.activeSound with _ | h <;> simp only [hs]
      · exact ⟨hL, hF⟩
      · split
        · exact ⟨show st.env.loaded = [] ∨ st.env.loaded = [h] from
            p3LoadedSome hL hs, by simp [hs]⟩
        · exact ⟨hL, hF⟩
  | reseekComplete =>
    show P3Inv (p3ReseekComplete st).1
    simp only [p3ReseekComplete]
    split
    · exact ⟨hL, by simpa using hF⟩
    · exact ⟨hL, hF⟩
  | fadeComplete =>
    show P3Inv (p3FadeComplete st).1
    simp only [p3FadeComplete]
    split
    · exact ⟨hL, by simp⟩
    · exact ⟨hL, hF⟩

theorem p3Inv_runFrom (ops : List P3Op) (st : P3State) (hI : P3Inv st) :
    P3Inv (p3RunS st ops) := by
  induction ops generalizing st with
  | nil => exact hI
  | cons o rest ih => exact ih _ (p3Inv_step st o hI)

theorem p3Inv_run (ops : List P3Op) : P3Inv (p3RunS p3Init ops) :=
  p3Inv_runFrom ops p3Init p3Inv_init

/-! ## Fade arithmetic -/

theorem fadeGain_mono (s t : Rat) (n : Nat) (hst : s ≤ t) {i j : Nat}
    (hij : i ≤ j) : fadeGain s t n i ≤ fadeGain s t n j := by
  unfold fadeGain
  have h0 : (0 : Rat) ≤ t - s := by linarith
  gcongr

theorem fadeGain_anti (s t : Rat) (n : Nat) (hts : t ≤ s) {i j : Nat}
    (hij : i ≤ j) : fadeGain s t n j ≤ fadeGain s t n i := by
  unfold fadeGain
  have hd : ((i : Rat)) / n ≤ ((j : Rat)) / n := by
    gcongr
  nlinarith [mul_le_mul_of_nonpos_left hd (by linarith : t - s ≤ 0)]

theorem fadeGain_final (s t : Rat) (n : Nat) (hn : 1 ≤ n) :
    fadeGain s t n n = t := by
  unfold fadeGain
  have hn0 : (0 : Rat) < n := by exact_mod_cast hn
  rw [div_self hn0.ne']
  ring

theorem fadeGain_between (s t : Rat) (n : Nat) (hn : 1 ≤ n) {k : Nat}
    (hk : k ≤ n) : min s t ≤ fadeGain s t n k ∧ fadeGain s t n k ≤ max s t := by
  have hn0 : (0 : Rat) < n := by exact_mod_cast hn
  have h0 : (0 : Rat) ≤ (k : Rat) / n := by positivity
  have h1 : (k : Rat) / n ≤ 1 := by
    rw [div_le_one hn0]
    exact_mod_cast hk
  unfold fadeGain
  constructor
  · rcases le_total s t with h | h
    · rw [min_eq_left h]
      nlinarith [mul_nonneg (sub_nonneg.2 h) h0]
    · rw [min_eq_right h]
      nlinarith [mul_nonneg (sub_nonneg.2 h) (by linarith : (0 : Rat) ≤ 1 - (k : Rat) / n)]
  · rcases le_total s t with h | h
    · rw [max_eq_right h]
      nlinarith [mul_le_mul_of_nonneg_left h1 (sub_nonneg.2 h)]
    · rw [max_eq_left h]
      nlinarith [mul_nonneg (sub_nonneg.2 h) h0]

theorem clamp01_mem (x : Rat) : 0 ≤ clamp01 x ∧ clamp01 x ≤ 1 := by
  unfold clamp01
  exact ⟨le_max_left 0 _, max_le (by norm_num) (min_le_left 1 x)⟩

/-- C7: for every single fade from start gain `s` to target `t` in `n ≥ 1`
discrete steps, the commanded gains `s + (t - s) * (k / n)`, `k = 1..n`, are
monotone toward the target (non-decreasing when `t ≥ s`, non-increasing when
`t ≤ s`), the final commanded value at `k = n` equals `t` exactly, and no
step overshoots the interval between `s` and `t`. -/
theorem C7_fade_monotone_exact (s t : Rat) (n : Nat) (hn : 1 ≤ n) :
    (s ≤ t → ∀ i j : Nat, i ≤ j → fadeGain s t n i ≤ fadeGain s t n j) ∧
    (t ≤ s → ∀ i j : Nat, i ≤ j → fadeGain s t n j ≤ fadeGain s t n i) ∧
    fadeGain s t n n = t ∧
    (∀ k : Nat, k ≤ n → min s t ≤ fadeGain s t n k ∧ fadeGain s t n k ≤ max s t) := by
  refine ⟨fun hst i j hij => fadeGain_mono s t n hst hij,
    fun hts i j hij => fadeGain_anti s t n hts hij,
    fadeGain_final s t n hn,
    fun k hk => fadeGain_between s t n hn hk⟩

/-- Witness for C7 at the lib start fade (`0 → 3/5` in 30 steps). -/
theorem C7_witness :
    1 ≤ 30 ∧ ((0 : Rat) ≤ 3 / 5) ∧ (1 : Nat) ≤ 2 ∧
    fadeGain 0 (3 / 5) 30 1 ≤ fadeGain 0 (3 / 5) 30 2 ∧
    fadeGain 0 (3 / 5) 30 30 = 3 / 5 := by
  refine ⟨by norm_num, by norm_num, by norm_num, ?_, ?_⟩
  · exact (C7_fade_monotone_exact 0 (3 / 5) 30 (by norm_num)).1 (by norm_num) 1 2
      (by norm_num)
  · exact (C7_fade_monotone_exact 0 (3 / 5) 30 (by norm_num)).2.2.1

/-- C10: every gain value the lib controller's `fadeTo` passes to the
device's `setVolumeAsync` is the clamp `Math.max(0, Math.min(1, _))` of the
interpolated gain and therefore lies in `[0, 1]`, for every start volume,
target volume (also outside `[0, 1]`) and step count. -/
theorem C10_fade_commands_in_unit (h : Nat) (s t : Rat) (n : Nat)
    (hh : Nat) (v : Rat) (hmem : Ev.setVol hh v ∈ libFadeEvents h s t n) :
    0 ≤ v ∧ v ≤ 1 := by
  rw [libFadeEvents, List.mem_map] at hmem
  obtain ⟨k, -, hk⟩ := hmem
  injection hk with h1 h2
  subst h2
  exact clamp01_mem _

/-- Witness for C10: the first command of the lib start fade toward an
out-of-range target `2` is clamped into `[0, 1]`. -/
theorem C10_witness :
    Ev.setVol 0 (clamp01 (fadeGain 0 2 30 1)) ∈ libFadeEvents 0 0 2 30 ∧
    (0 ≤ clamp01 (fadeGain 0 2 30 1) ∧ clamp01 (fadeGain 0 2 30 1) ≤ 1) := by
  have hmem : Ev.setVol 0 (clamp01 (fadeGain 0 2 30 1)) ∈ libFadeEvents 0 0 2 30 := by
    rw [libFadeEvents, List.mem_map]
    exact ⟨0, by norm_num [List.mem_range], rfl⟩
  exact ⟨hmem, C10_fade_commands_in_unit 0 0 2 30 0 _ hmem⟩

/-! ## Claim C1: resource exclusivity -/

/-- "The previous handle is fully unloaded before the new resource is
created": scanning the trace up to the first creation event, an
`unload h` occurs, and a creation event exists later. -/
def unloadBeforeCreateB (h : Nat) : List Ev → Bool
  | [] => false
  | e :: rest =>
    if e.isCreate then false
    else if e = Ev.unload h then rest.any (fun x => x.isCreate)
    else unloadBeforeCreateB h rest

/-- A lib controller state in a playing session (handle 0 loaded,
countdown running, 30 s remaining). -/
def libPlaying : LibState :=
  { libInit with env := { nextId := 1, loaded := [0] }, sound := some 0,
                 countdownOn := true, isPlaying := true, remainingSeconds := 30 }

/-- A part_003 controller state in a playing session (handle 0 loaded from
source 1, countdown running, 30 s remaining). -/
def p3Playing : P3State :=
  { p3Init with env := { nextId := 1, loaded := [0] }, activeSound := some 0,
                countdownOn := true, stIsPlaying := true, stRemaining := 30,
                currentSource := some 1 }

/-- C1: under any sequence of controller operations (run to completion, in
order) both controller variants hold at most one loaded audio resource
handle at any instant; and a `start` that replaces the held resource (the
lib variant always reloads; the part_003 variant reloads when the source
changed) unloads the previous handle strictly before creating the new one,
whenever a new resource is in fact created (i.e. the load itself does not
reject). -/
theorem C1_resource_exclusivity :
    (∀ ops : List LibOp, ((libRunS libInit ops).env.loaded).length ≤ 1) ∧
    (∀ ops : List P3Op, ((p3RunS p3Init ops).env.loaded).length ≤ 1) ∧
    (∀ (st : LibState) (h src : Nat) (d : Int) (tv : Rat) (oc : Outcome),
      st.sound = some h → oc ≠ Outcome.loadFails →
      unloadBeforeCreateB h (libStep st (LibOp.start src d tv oc)).2 = true) ∧
    (∀ (st : P3State) (h src : Nat) (d : Int) (tv : Rat) (oc : Outcome),
      st.disposed = false → st.activeSound = some h → st.currentSource ≠ some src →
      oc ≠ Outcome.loadFails →
      unloadBeforeCreateB h (p3Step st (P3Op.start src d tv oc)).2 = true) := by
  refine ⟨?_, ?_, ?_, ?_⟩
  · intro ops
    have hI := (libInv_run ops).1
    rw [hI]
    cases (libRunS libInit ops).sound <;> simp
  · intro ops
    rcases (p3Inv_run ops).1 with h1 | h1 <;> rw [h1]
    · simp
    · cases (p3RunS p3Init ops).activeSound <;> simp
  · intro st h src d tv oc hs hoc
    cases oc with
    | loadFails => exact absurd rfl hoc
    | ok =>
      show unloadBeforeCreateB h (libStart src d tv Outcome.ok st).2 = true
      simp [libStart, libStop, libFadeTo, hs, unloadBeforeCreateB, Ev.isCreate]
    | playFails =>
      show unloadBeforeCreateB h (libStart src d tv Outcome.playFails st).2 = true
      simp [libStart, libStop, libFadeTo, hs, unloadBeforeCreateB, Ev.isCreate]
  · intro st h src d tv oc hd hs hch hoc
    cases oc with
    | loadFails => exact absurd rfl hoc
    | ok =>
      show unloadBeforeCreateB h (p3Start src d tv Outcome.ok st).2 = true
      simp [p3Start, p3Fade, p3StartCountdown, hd, hs, hch, unloadBeforeCreateB,
        Ev.isCreate]
    | playFails =>
      show unloadBeforeCreateB h (p3Start src d tv Outcome.playFails st).2 = true
      simp [p3Start, p3Fade, p3StartCountdown, hd, hs, hch, unloadBeforeCreateB,
        Ev.isCreate]

/-- Witness for C1: concrete runs and a concrete source-changing restart in
each variant. -/
theorem C1_witness :
    ((libRunS libInit [LibOp.start 1 30 (3 / 5) Outcome.ok,
        LibOp.start 2 20 (1 / 2) Outcome.ok]).env.loaded).length ≤ 1 ∧
    ((p3RunS p3Init [P3Op.start 1 30 (7 / 10) Outcome.ok,
        P3Op.start 2 20 (1 / 2) Outcome.ok]).env.loaded).length ≤ 1 ∧
    unloadBeforeCreateB 0 (libStep libPlaying (LibOp.start 2 20 (1 / 2) Outcome.ok)).2 = true ∧
    unloadBeforeCreateB 0 (p3Step p3Playing (P3Op.start 2 20 (1 / 2) Outcome.ok)).2 = true := by
  refine ⟨C1_resource_exclusivity.1 _, C1_resource_exclusivity.2.1 _, ?_, ?_⟩
  · exact C1_resource_exclusivity.2.2.1 libPlaying 0 2 20 (1 / 2) Outcome.ok
      (by decide) (by decide)
  · exact C1_resource_exclusivity.2.2.2 p3Playing 0 2 20 (1 / 2) Outcome.ok
      (by decide) (by decide) (by decide) (by decide)

/-! ## Claim C2: final-fade trigger -/

/-- Is an event the initiation of a fade? -/
def Ev.isFadeStart : Ev → Bool
  | .fadeStart _ _ => true
  | _ => false

/-- Number of fade initiations in a trace. -/
def countFadeStarts (tr : List Ev) : Nat :=
  tr.countP (fun e => e.isFadeStart)

/-- Total number of fade initiations over `k` consecutive countdown ticks. -/
def p3TickTraceCount : P3State → Nat → Nat
  | _, 0 => 0
  | st, k + 1 => countFadeStarts (p3Tick st).2 + p3TickTraceCount (p3Tick st).1 k

/-- How many final-fade triggers the countdown can still fire. -/
def p3TickBudget (st : P3State) : Nat :=
  if st.countdownOn = true ∧ st.finalFadeStarted = false then 1 else 0

theorem p3Stop_noFade_count (st : P3State) :
    countFadeStarts (p3Stop false st).2 = 0 := by
  rcases hs : st.activeSound with _ | h <;>
    simp [p3Stop, hs, countFadeStarts, Ev.isFadeStart]

theorem p3Stop_countdownOff (wf : Bool) (st : P3State) :
    (p3Stop wf st).1.countdownOn = false := by
  rcases hs : st.activeSound with _ | h <;> cases wf <;>
    simp [p3Stop, p3Fade, hs]

theorem p3TickBudget_of_off (st : P3State) (hc : st.countdownOn = false) :
    p3TickBudget st = 0 := by
  simp [p3TickBudget, hc]

theorem p3Tick_budget (st : P3State) :
    countFadeStarts (p3Tick st).2 + p3TickBudget (p3Tick st).1 ≤ p3TickBudget st := by
  by_cases hc : st.countdownOn = true
  · rw [p3Tick, if_neg (by simp [hc])]
    by_cases hz : st.stRemaining - 1 ≤ 0
    · rw [if_pos hz]
      rw [p3Stop_noFade_count, p3TickBudget_of_off _ (p3Stop_countdownOff _ _)]
      exact Nat.zero_le _
    · rw [if_neg hz]
      by_cases htr : st.stRemaining - 1 ≤ 8 ∧ ¬st.finalFadeStarted = true
      · have hff : st.finalFadeStarted = false := by
          cases hf : st.finalFadeStarted
          · rfl
          · exact absurd hf htr.2
        have h9 : st.stRemaining ≤ 9 := by omega
        rcases hs : st.activeSound with _ | h <;>
          simp [hs, countFadeStarts, Ev.isFadeStart, p3TickBudget, hff, hc, h9]
      · have h0 : countFadeStarts (if st.stRemaining - 1 ≤ 8 ∧ ¬st.finalFadeStarted = true
            then match st.activeSound with
              | some _ => ({ st with finalFadeStarted := true, fadeOn := true },
                  [Ev.fadeStart 0 ((st.stRemaining - 1) * 1000)])
              | none => ({ st with finalFadeStarted := true, currentVolume := 0 }, [])
            else (st, [])).2 = 0 := by
          rw [if_neg htr]
          simp [countFadeStarts]
        rw [if_neg htr]
        simp [countFadeStarts, p3TickBudget]
      
  · simp [p3Tick, hc, countFadeStarts, p3TickBudget, hc]

theorem p3TickTraceCount_le_budget (k : Nat) (st : P3State) :
    p3TickTraceCount st k ≤ p3TickBudget st := by
  induction k generalizing st with
  | zero => exact Nat.zero_le _
  | succ k ih =>
    calc p3TickTraceCount st (k + 1)
        = countFadeStarts (p3Tick st).2 + p3TickTraceCount (p3Tick st).1 k := rfl
      _ ≤ countFadeStarts (p3Tick st).2 + p3TickBudget (p3Tick st).1 :=
          Nat.add_le_add_left (ih _) _
      _ ≤ p3TickBudget st := p3Tick_budget st

/-- C2: in the part_003 controller, the countdown tick that brings
`remainingSeconds` into the final-fade window (at most 8 seconds left,
but not yet zero) while a session is playing starts exactly one fade to
gain 0 whose requested duration is the remaining time in milliseconds
(`next * 1000`, not a fixed window) and sets `finalFadeStarted`; a tick
with `finalFadeStarted` already set starts no fade; and over any number
of consecutive ticks from a state with the flag clear, at most one fade
is ever started. -/
theorem C2_final_fade_trigger :
    (∀ st : P3State, st.countdownOn = true → st.finalFadeStarted = false →
      st.activeSound ≠ none → 1 ≤ st.stRemaining - 1 → st.stRemaining - 1 ≤ 8 →
      (p3Tick st).2 = [Ev.fadeStart 0 ((st.stRemaining - 1) * 1000)] ∧
      (p3Tick st).1.finalFadeStarted = true ∧
      (p3Tick st).1.stRemaining = st.stRemaining - 1) ∧
    (∀ st : P3State, st.finalFadeStarted = true →
      countFadeStarts (p3Tick st).2 = 0) ∧
    (∀ (st : P3State) (k : Nat), st.finalFadeStarted = false →
      p3TickTraceCount st k ≤ 1) := by
  refine ⟨?_, ?_, ?_⟩
  · intro st hc hff hsn hlo hhi
    obtain ⟨h, hs⟩ := Option.ne_none_iff_exists'.1 hsn
    have h1 : ¬st.stRemaining ≤ 1 := by omega
    have h9 : st.stRemaining ≤ 9 := by omega
    refine ⟨?_, ?_, ?_⟩ <;> simp [p3Tick, hc, hff, hs, h1, h9]
  · intro st hff
    by_cases hc : st.countdownOn = true
    · rw [p3Tick, if_neg (by simp [hc])]
      by_cases hz : st.stRemaining - 1 ≤ 0
      · rw [if_pos hz]
        exact p3Stop_noFade_count _
      · rw [if_neg hz, if_neg (by simp [hff])]
        simp [countFadeStarts]
    · simp [p3Tick, hc, countFadeStarts]
  · intro st k hff
    refine le_trans (p3TickTraceCount_le_budget k st) ?_
    unfold p3TickBudget
    split <;> omega

/-- A part_003 playing session with 9 seconds remaining: the next tick is
the final-fade trigger. -/
def p3Playing9 : P3State := { p3Playing with stRemaining := 9 }

/-- Witness for C2 at the Scenario-B state (9 s remaining, next tick 8). -/
theorem C2_witness :
    (p3Playing9.countdownOn = true ∧ p3Playing9.finalFadeStarted = false ∧
      p3Playing9.activeSound ≠ none ∧ 1 ≤ p3Playing9.stRemaining - 1 ∧
      p3Playing9.stRemaining - 1 ≤ 8) ∧
    (p3Tick p3Playing9).2 = [Ev.fadeStart 0 ((p3Playing9.stRemaining - 1) * 1000)] ∧
    (p3Tick p3Playing9).1.finalFadeStarted = true ∧
    p3TickTraceCount p3Playing9 3 ≤ 1 := by
  refine ⟨⟨by decide, by decide, by decide, by decide, by decide⟩, ?_, ?_, ?_⟩
  · exact (C2_final_fade_trigger.1 p3Playing9 (by decide) (by decide) (by decide)
      (by decide) (by decide)).1
  · exact (C2_final_fade_trigger.1 p3Playing9 (by decide) (by decide) (by decide)
      (by decide) (by decide)).2.1
  · exact C2_final_fade_trigger.2.2 p3Playing9 3 (by decide)

/-! ## Claim C3: stop tears everything down -/

/-- C3: after any public stop — `stopManual` (faded) or `dispose` (unfaded)
in the lib variant, `stop(withFade)` for either flag in the part_003
variant — from any reachable phase, the countdown and fade timers are
cleared, the resource is unloaded with the stored handle null, the phase is
Idle (not playing, not paused, not loading) and `remainingSeconds` is 0. -/
theorem C3_stop_teardown :
    (∀ st : LibState, LibInv st →
      ((libStopManual st).1.countdownOn = false ∧ (libStopManual st).1.fadeOn = false ∧
       (libStopManual st).1.sound = none ∧ (libStopManual st).1.env.loaded = [] ∧
       (libStopManual st).1.isPlaying = false ∧ (libStopManual st).1.isPaused = false ∧
       (libStopManual st).1.remainingSeconds = 0) ∧
      ((libDispose st).1.countdownOn = false ∧ (libDispose st).1.fadeOn = false ∧
       (libDispose st).1.sound = none ∧ (libDispose st).1.env.loaded = [] ∧
       (libDispose st).1.isPlaying = false ∧ (libDispose st).1.isPaused = false ∧
       (libDispose st).1.remainingSeconds = 0)) ∧
    (∀ (st : P3State) (wf : Bool), P3Inv st →
      (p3Stop wf st).1.countdownOn = false ∧ (p3Stop wf st).1.fadeOn = false ∧
      (p3Stop wf st).1.activeSound = none ∧ (p3Stop wf st).1.env.loaded = [] ∧
      (p3Stop wf st).1.stIsPlaying = false ∧ (p3Stop wf st).1.stIsLoading = false ∧
      (p3Stop wf st).1.stRemaining = 0) := by
  constructor
  · intro st hI
    constructor
    · obtain ⟨h1, h2, h3, h4, h5, h6, h7, h8, h9⟩ := libStop_spec true 5000 true st
      exact ⟨h2, h3, h1, h9 hI.1, h6, h7, h8 rfl⟩
    · obtain ⟨h1, h2, h3, h4, h5, h6, h7, h8, h9⟩ := libStop_spec false 5000 true st
      exact ⟨h2, h3, h1, h9 hI.1, h6, h7, h8 rfl⟩
  · intro st wf hI
    obtain ⟨h1, h2, h3, h4, h5, h6, h7, h8⟩ := p3Stop_spec wf st hI
    exact ⟨h2, h3, h1, h8, h5, h6, h7⟩

/-- Witness for C3 at concrete playing sessions. -/
theorem C3_witness :
    LibInv libPlaying ∧ P3Inv p3Playing ∧
    (libStopManual libPlaying).1.sound = none ∧
    (libStopManual libPlaying).1.remainingSeconds = 0 ∧
    (libDispose libPlaying).1.env.loaded = [] ∧
    (p3Stop true p3Playing).1.env.loaded = [] ∧
    (p3Stop false p3Playing).1.stRemaining = 0 := by
  refine ⟨by decide, by decide, ?_, ?_, ?_, ?_, ?_⟩
  · exact ((C3_stop_teardown.1 libPlaying (by decide)).1).2.2.1
  · exact ((C3_stop_teardown.1 libPlaying (by decide)).1).2.2.2.2.2.2
  · exact ((C3_stop_teardown.1 libPlaying (by decide)).2).2.2.2.1
  · exact (C3_stop_teardown.2 p3Playing true (by decide)).2.2.2.1
  · exact (C3_stop_teardown.2 p3Playing false (by decide)).2.2.2.2.2.2

/-! ## Claim C4: loop-restart reseek latch -/

/-- C4 (amended): in the lib controller, the status callback ignores every
signal while `loopSeekInProgress` holds (state unchanged, no device call);
whenever it does initiate a reseek the latch was clear and is set by the
same step; and along every operation sequence at most one reseek is in
flight.  (The part_003 variant's `didJustFinish` path has no such latch —
see the counterexample.) -/
theorem C4_lib_reseek_latch :
    (∀ (st : LibState) (l dj : Bool) (pos : Int) (dur : Option Int),
      st.loopSeekInProgress = true →
      libStatusUpdate l dj pos dur st = (st, [])) ∧
    (∀ (st : LibState) (l dj : Bool) (pos : Int) (dur : Option Int),
      (libStatusUpdate l dj pos dur st).2 ≠ [] →
      st.loopSeekInProgress = false ∧
      (libStatusUpdate l dj pos dur st).1.loopSeekInProgress = true ∧
      (libStatusUpdate l dj pos dur st).1.seekInFlight = st.seekInFlight + 1) ∧
    (∀ ops : List LibOp, (libRunS libInit ops).seekInFlight ≤ 1) := by
  refine ⟨?_, ?_, ?_⟩
  · intro st l dj pos dur hlp
    cases l <;> rcases hs : st.sound with _ | h <;>
      simp [libStatusUpdate, hs, hlp]
  · intro st l dj pos dur hne
    cases l with
    | false => simp [libStatusUpdate] at hne
    | true =>
      rcases hs : st.sound with _ | h
      · simp [libStatusUpdate, hs] at hne
      · cases hp : st.isPlaying <;> cases hpa : st.isPaused <;>
          cases hlp : st.loopSeekInProgress <;>
          simp [libStatusUpdate, hs, hp, hpa, hlp] at hne ⊢
        cases dj with
        | true => simp
        | false =>
          by_cases hd0 : dur.getD 0 ≤ 0
          · simp [hd0] at hne
          · by_cases hnear : dur.getD 0 ≤ 120 + pos
            · simp [hd0, hnear]
            · simp [hd0, hnear] at hne
  · intro ops
    have hI := (libInv_run ops).2
    rw [hI]
    split <;> omega

/-- Counterexample for C4 as stated: the part_003 `didJustFinish` reseek
path has no latch, so two end-of-track signals delivered before the first
reseek completes both initiate a reseek — two reseeks in flight, and the
second signal is not ignored. -/
theorem C4_counterexample :
    (p3StatusUpdate true true p3Playing).1.seekInFlight = 1 ∧
    (p3StatusUpdate true true (p3StatusUpdate true true p3Playing).1).2 = [Ev.setPos 0 0] ∧
    (p3StatusUpdate true true (p3StatusUpdate true true p3Playing).1).1.seekInFlight = 2 := by
  refine ⟨?_, ?_, ?_⟩ <;> decide

/-! ## Claim C5: failure during start -/

/-- C5 (amended): in the lib controller, a rejected load or play inside
`start` reports the playback-load error, unloads any partially created
resource, and returns to Idle with the stored handle null and the timer
reset.  In the part_003 variant the error is reported and the
playing/loading flags are cleared (when the failing call is the load of a
fresh or changed source, or the play call), but no such cleanup happens —
see the counterexample. -/
theorem libStart_fail_spec (src : Nat) (d : Int) (tv : Rat) (oc : Outcome)
    (st : LibState) (hoc : oc ≠ Outcome.ok) :
    (libStart src d tv oc st).1.sound = none ∧
    (libStart src d tv oc st).1.isPlaying = false ∧
    (libStart src d tv oc st).1.isPaused = false ∧
    (libStart src d tv oc st).1.countdownOn = false ∧
    (libStart src d tv oc st).1.fadeOn = false ∧
    (libStart src d tv oc st).1.remainingSeconds = 0 ∧
    Ev.onError libLoadErrorMsg ∈ (libStart src d tv oc st).2 := by
  cases oc with
  | ok => exact absurd rfl hoc
  | loadFails =>
    simp only [libStart]
    exact ⟨(libStop_spec false 5000 true _).1,
      (libStop_spec false 5000 true _).2.2.2.2.2.1,
      (libStop_spec false 5000 true _).2.2.2.2.2.2.1,
      (libStop_spec false 5000 true _).2.1,
      (libStop_spec false 5000 true _).2.2.1,
      (libStop_spec false 5000 true _).2.2.2.2.2.2.2.1 rfl,
      by simp⟩
  | playFails =>
    simp only [libStart]
    exact ⟨(libStop_spec false 5000 true _).1,
      (libStop_spec false 5000 true _).2.2.2.2.2.1,
      (libStop_spec false 5000 true _).2.2.2.2.2.2.1,
      (libStop_spec false 5000 true _).2.1,
      (libStop_spec false 5000 true _).2.2.1,
      (libStop_spec false 5000 true _).2.2.2.2.2.2.2.1 rfl,
      by simp⟩

/-- C5 (amended): in the lib controller, a rejected load or play inside
`start` reports the playback-load error, unloads any partially created
resource, and returns to Idle with the stored handle null and the timer
reset.  In the part_003 variant the error is reported and the
playing/loading flags are cleared (when the failing call is the load of a
fresh or changed source, or the play call), but no such cleanup happens —
see the counterexample. -/
theorem C5_start_failure_cleanup :
    (∀ (st : LibState) (src : Nat) (d : Int) (tv : Rat) (oc : Outcome),
      LibInv st → oc ≠ Outcome.ok →
      Ev.onError libLoadErrorMsg ∈ (libStart src d tv oc st).2 ∧
      (libStart src d tv oc st).1.sound = none ∧
      (libStart src d tv oc st).1.env.loaded = [] ∧
      (libStart src d tv oc st).1.isPlaying = false ∧
      (libStart src d tv oc st).1.isPaused = false ∧
      (libStart src d tv oc st).1.countdownOn = false ∧
      (libStart src d tv oc st).1.fadeOn = false ∧
      (libStart src d tv oc st).1.remainingSeconds = 0) ∧
    (∀ (st : P3State) (src : Nat) (d : Int) (tv : Rat),
      st.disposed = false →
      (st.activeSound = none ∨ st.currentSource ≠ some src →
        (p3Start src d tv Outcome.loadFails st).1.stError = p3LoadErrorMsg ∧
        (p3Start src d tv Outcome.loadFails st).1.stIsPlaying = false ∧
        (p3Start src d tv Outcome.loadFails st).1.stIsLoading = false) ∧
      ((p3Start src d tv Outcome.playFails st).1.stError = p3LoadErrorMsg ∧
       (p3Start src d tv Outcome.playFails st).1.stIsPlaying = false ∧
       (p3Start src d tv Outcome.playFails st).1.stIsLoading = false)) := by
  constructor
  · intro st src d tv oc hI hoc
    have hspec := libStart_fail_spec src d tv oc st hoc
    have hfin := libInv_step st (LibOp.start src d tv oc) hI
    refine ⟨hspec.2.2.2.2.2.2, hspec.1, ?_, hspec.2.1, hspec.2.2.1,
      hspec.2.2.2.1, hspec.2.2.2.2.1, hspec.2.2.2.2.2.1⟩
    have hfin1 : (libStart src d tv oc st).1.env.loaded =
        (libStart src d tv oc st).1.sound.toList := hfin.1
    rw [hfin1, hspec.1]
    rfl
  · intro st src d tv hd
    constructor
    · intro hcase
      rcases hs : st.activeSound with _ | h0
      · simp [p3Start, hd, hs]
      · have hch : ¬st.currentSource = some src := by
          rcases hcase with hc | hc
          · exact absurd hs (by simp [hc])
          · exact hc
        simp [p3Start, hd, hs, hch]
    · rcases hs : st.activeSound with _ | h0
      · simp [p3Start, hd, hs]
      · by_cases hch : st.currentSource = some src <;>
          simp [p3Start, hd, hs, hch]

/-- Counterexample for C5 as stated: in the part_003 variant a `start`
from Idle whose `playAsync` rejects reports the error but retains the
freshly created resource — the stored handle is not null and the resource
is still loaded when `start` returns. -/
theorem C5_counterexample :
    (p3Start 1 30 (7 / 10) Outcome.playFails p3Init).1.stError = p3LoadErrorMsg ∧
    (p3Start 1 30 (7 / 10) Outcome.playFails p3Init).1.activeSound = some 0 ∧
    (p3Start 1 30 (7 / 10) Outcome.playFails p3Init).1.env.loaded = [0] := by
  refine ⟨?_, ?_, ?_⟩ <;> decide

/-! ## Claim C6: pause/resume conserves remaining time -/

/-- `n` firings of the lib countdown timer slot (no tick fires while the
timer handle is cleared). -/
def libTickN (n : Nat) (st : LibState) : LibState :=
  (fun s => (libTick s).1)^[n] st

/-- `n` firings of the part_003 countdown timer slot. -/
def p3TickN (n : Nat) (st : P3State) : P3State :=
  (fun s => (p3Tick s).1)^[n] st

theorem libTick_off {st : LibState} (hc : st.countdownOn = false) :
    (libTick st).1 = st := by
  simp [libTick, hc]

theorem p3Tick_off {st : P3State} (hc : st.countdownOn = false) :
    (p3Tick st).1 = st := by
  simp [p3Tick, hc]

/-- C6: for a playing session, `remainingSeconds` observed before
`pause()` equals the value observed after the subsequent `resume()`, no
matter how many countdown timer slots elapse in between: pause cancels the
countdown (so the paused state is a fixed point of the tick) and neither
pause, the elapsed ticks, nor resume changes `remainingSeconds`. -/
theorem C6_pause_resume_conserves_time :
    (∀ (st : LibState) (n : Nat), st.sound ≠ none → st.isPlaying = true →
      st.isPaused = false →
      (libResume (libTickN n (libPause st).1)).1.remainingSeconds =
        st.remainingSeconds) ∧
    (∀ (st : P3State) (n : Nat), st.activeSound ≠ none → st.stIsPlaying = true →
      (p3Resume (p3TickN n (p3Pause st).1)).1.stRemaining = st.stRemaining) := by
  constructor
  · intro st n hsn hp hnp
    obtain ⟨h, hs⟩ := Option.ne_none_iff_exists'.1 hsn
    have hP : (libPause st).1 =
        { st with countdownOn := false, isPaused := true } := by
      simp [libPause, hs, hp, hnp]
    have hfix : libTickN n (libPause st).1 = (libPause st).1 :=
      Function.iterate_fixed (by rw [hP]; exact libTick_off rfl) n
    rw [hfix, hP]
    simp [libResume, hs, hp]
  · intro st n hsn hp
    obtain ⟨h, hs⟩ := Option.ne_none_iff_exists'.1 hsn
    have hP : (p3Pause st).1 =
        { st with countdownOn := false, fadeOn := false,
                  currentVolume := fadeGain st.currentVolume 0 22 22,
                  stIsPlaying := false } := by
      simp [p3Pause, p3Fade, hs, hp]
    have hfix : p3TickN n (p3Pause st).1 = (p3Pause st).1 :=
      Function.iterate_fixed (by rw [hP]; exact p3Tick_off rfl) n
    rw [hfix, hP]
    by_cases hr : st.stRemaining > 0 <;>
      simp [p3Resume, p3Fade, p3StartCountdown, hs, hr]

/-- Witness for C6: a 5-tick paused gap in both variants preserves the
30 s countdown. -/
theorem C6_witness :
    (libPlaying.sound ≠ none ∧ libPlaying.isPlaying = true ∧
      libPlaying.isPaused = false ∧
      (libResume (libTickN 5 (libPause libPlaying).1)).1.remainingSeconds =
        libPlaying.remainingSeconds) ∧
    (p3Playing.activeSound ≠ none ∧ p3Playing.stIsPlaying = true ∧
      (p3Resume (p3TickN 5 (p3Pause p3Playing).1)).1.stRemaining =
        p3Playing.stRemaining) := by
  refine ⟨⟨by decide, by decide, by decide, ?_⟩, ⟨by decide, by decide, ?_⟩⟩
  · exact C6_pause_resume_conserves_time.1 libPlaying 5 (by decide) (by decide)
      (by decide)
  · exact C6_pause_resume_conserves_time.2 p3Playing 5 (by decide) (by decide)

/-! ## Claim C8: setVolume semantics -/

/-- A paused part_003 session: the resource is held, playback halted. -/
def p3Paused : P3State :=
  { p3Playing with stIsPlaying := false, countdownOn := false }

/-- A paused lib session: the resource is held, playback paused, the
device gain still at the previously faded-up target `3/5`. -/
def libPaused : LibState :=
  { libPlaying with isPaused := true, countdownOn := false, deviceVolume := 3 / 5 }

/-- C8 (amended).  part_003 `setVolume`: with no loaded resource it makes
no device call and stores `v` as the target (and shadow) volume, and a
later `resume` fades toward the stored target; with a loaded resource —
in particular while playing — `v` is written to the device directly, with
no fade (the trace is exactly the one volume write).  lib
`setTargetVolume`: it always stores `v` as the target; it makes a device
call only with a sound loaded, playing and un-paused (then a direct,
fade-free write of `v`), and no device call otherwise; lib `resume`,
however, never adjusts the volume (no volume write in its trace, device
gain and target unchanged), so in the lib variant the stored target takes
effect only at the next `start` fade or direct write, not at `resume`. -/
theorem C8_setVolume_semantics :
    (∀ (st : P3State) (v : Rat), st.activeSound = none →
      (p3SetVolume v st).2 = [] ∧
      (p3SetVolume v st).1.targetVolume = v ∧
      (p3SetVolume v st).1.currentVolume = v) ∧
    (∀ (st : P3State) (v : Rat) (h : Nat), st.activeSound = some h →
      (p3SetVolume v st).2 = [Ev.setVol h v] ∧
      (p3SetVolume v st).1.targetVolume = v) ∧
    (∀ (st : P3State) (h : Nat), st.activeSound = some h →
      st.stIsPlaying = false →
      Ev.fadeStart st.targetVolume 1200 ∈ (p3Resume st).2) ∧
    (∀ (st : LibState) (v : Rat),
      st.sound = none ∨ st.isPlaying = false ∨ st.isPaused = true →
      (libSetTargetVolume v st).2 = [] ∧
      (libSetTargetVolume v st).1.targetVolume = v) ∧
    (∀ (st : LibState) (v : Rat) (h : Nat), st.sound = some h →
      st.isPlaying = true → st.isPaused = false →
      (libSetTargetVolume v st).2 = [Ev.setVol h v] ∧
      (libSetTargetVolume v st).1.targetVolume = v) ∧
    (∀ st : LibState,
      (libResume st).1.deviceVolume = st.deviceVolume ∧
      (libResume st).1.targetVolume = st.targetVolume ∧
      ∀ (h : Nat) (v : Rat), Ev.setVol h v ∉ (libResume st).2) := by
  refine ⟨?_, ?_, ?_, ?_, ?_, ?_⟩
  · intro st v hs
    simp [p3SetVolume, hs]
  · intro st v h hs
    simp [p3SetVolume, hs]
  · intro st h hs hp
    simp [p3Resume, p3Fade, hs, hp]
  · intro st v hcond
    rcases hs : st.sound with _ | h
    · simp [libSetTargetVolume, hs]
    · rcases hcond with h1 | h1 | h1
      · exact absurd hs (by simp [h1])
      · simp [libSetTargetVolume, hs, h1]
      · simp [libSetTargetVolume, hs, h1]
  · intro st v h hs hp hnp
    simp [libSetTargetVolume, hs, hp, hnp]
  · intro st
    rcases hs : st.sound with _ | h
    · simp [libResume, hs]
    · refine ⟨?_, ?_, ?_⟩ <;> simp only [libResume, hs] <;> split <;> simp

/-- Counterexample for C8 as stated: in the src/lib controller,
`setTargetVolume(9/10)` on a paused session makes no device call and
stores the target (as the claim says), but the subsequent `resume` sends
no volume write at all — the device gain stays at the old `3/5`, which
differs from the stored target `9/10` — so the next resume does not steer
toward `v` as the effective target. -/
theorem C8_counterexample :
    (libSetTargetVolume (9 / 10) libPaused).2 = [] ∧
    (libResume (libSetTargetVolume (9 / 10) libPaused).1).2 =
      [Ev.playDev 0, Ev.playState true false] ∧
    (libResume (libSetTargetVolume (9 / 10) libPaused).1).1.deviceVolume =
      libPaused.deviceVolume ∧
    (libResume (libSetTargetVolume (9 / 10) libPaused).1).1.targetVolume = 9 / 10 ∧
    libPaused.deviceVolume ≠ (9 / 10 : Rat) := by
  refine ⟨by decide, by decide, rfl, rfl, ?_⟩
  show (3 / 5 : Rat) ≠ 9 / 10
  norm_num

/-- Witness for C8 (Scenario E): `setVolume(9/10)` with no resource makes
no device call and stores the target; on a playing session it is one
direct write; a part_003 `resume` on a paused session steers to the
stored target, while a lib `resume` leaves the device gain untouched. -/
theorem C8_witness :
    ((p3SetVolume (9 / 10) p3Init).2 = [] ∧
      (p3SetVolume (9 / 10) p3Init).1.targetVolume = 9 / 10) ∧
    (p3SetVolume (9 / 10) p3Playing).2 = [Ev.setVol 0 (9 / 10)] ∧
    Ev.fadeStart p3Paused.targetVolume 1200 ∈ (p3Resume p3Paused).2 ∧
    (libSetTargetVolume (9 / 10) libPaused).2 = [] ∧
    (libSetTargetVolume (9 / 10) libPlaying).2 = [Ev.setVol 0 (9 / 10)] ∧
    (libResume libPaused).1.deviceVolume = libPaused.deviceVolume := by
  refine ⟨⟨?_, ?_⟩, ?_, ?_, ?_, ?_, ?_⟩
  · exact (C8_setVolume_semantics.1 p3Init (9 / 10) (by decide)).1
  · exact (C8_setVolume_semantics.1 p3Init (9 / 10) (by decide)).2.1
  · exact (C8_setVolume_semantics.2.1 p3Playing (9 / 10) 0 (by decide)).1
  · exact C8_setVolume_semantics.2.2.1 p3Paused 0 (by decide) (by decide)
  · exact (C8_setVolume_semantics.2.2.2.1 libPaused (9 / 10) (by decide)).1
  · exact (C8_setVolume_semantics.2.2.2.2.1 libPlaying (9 / 10) 0 (by decide)
      (by decide) (by decide)).1
  · exact (C8_setVolume_semantics.2.2.2.2.2 libPaused).1


/-! ## Claim C9: idempotent teardown -/

/-- Idle lib controller: no resource, no timers, not playing or paused,
countdown at 0 (as after a completed teardown or at construction). -/
def LibIdle (st : LibState) : Prop :=
  st.sound = none ∧ st.countdownOn = false ∧ st.fadeOn = false ∧
  st.loopSeekInProgress = false ∧ st.seekInFlight = 0 ∧
  st.isPlaying = false ∧ st.isPaused = false ∧ st.remainingSeconds = 0

/-- Idle part_003 controller. -/
def P3Idle (st : P3State) : Prop :=
  st.activeSound = none ∧ st.countdownOn = false ∧ st.fadeOn = false ∧
  st.stIsPlaying = false ∧ st.stIsLoading = false ∧ st.stRemaining = 0 ∧
  st.finalFadeStarted = false

/-- C9 (amended): teardown from Idle is a no-op on the controller state —
lib `stopManual` and `dispose`, and part_003 `stop` (either fade flag),
return the state unchanged; part_003 `dispose`, however, flips the
terminal `disposed` latch (the state is unchanged *except* that latch, and
a second `dispose` is a no-op). -/
theorem C9_idempotent_teardown :
    (∀ st : LibState, LibIdle st →
      (libStopManual st).1 = st ∧ (libDispose st).1 = st) ∧
    (∀ st : P3State, P3Idle st →
      (p3Stop true st).1 = st ∧ (p3Stop false st).1 = st ∧
      (p3Dispose st).1 = { st with disposed := true } ∧
      (st.disposed = true → (p3Dispose st).1 = st)) := by
  constructor
  · rintro ⟨env, sound, cd, fo, lsp, sif, ip, ipd, rem, tv, dv⟩
      ⟨h1, h2, h3, h4, h5, h6, h7, h8⟩
    dsimp only at h1 h2 h3 h4 h5 h6 h7 h8
    subst h1 h2 h3 h4 h5 h6 h7 h8
    exact ⟨rfl, rfl⟩
  · rintro ⟨env, snd, fo, cd, ip, il, rem, err, dsp, ffs, cv, tv, cs, sif⟩
      ⟨h1, h2, h3, h4, h5, h6, h7⟩
    dsimp only at h1 h2 h3 h4 h5 h6 h7
    subst h1 h2 h3 h4 h5 h6 h7
    refine ⟨rfl, rfl, rfl, ?_⟩
    intro hdsp
    dsimp only at hdsp
    subst hdsp
    rfl

/-- Counterexample for C9 as stated: a fresh part_003 controller is Idle
and not disposed, yet `dispose()` changes its state — the permanent
`disposed` latch flips, after which `start` is inert. -/
theorem C9_counterexample :
    P3Idle p3Init ∧ p3Init.disposed = false ∧
    (p3Dispose p3Init).1.disposed = true ∧
    (p3Dispose p3Init).1 ≠ p3Init ∧
    p3Start 1 30 (7 / 10) Outcome.ok (p3Dispose p3Init).1 =
      ((p3Dispose p3Init).1, []) := by
  refine ⟨⟨rfl, rfl, rfl, rfl, rfl, rfl, rfl⟩, rfl, rfl, ?_, rfl⟩
  intro heq
  have hd := congrArg P3State.disposed heq
  simp [p3Dispose, p3Init] at hd

/-- Witness for C9 at the initial (Idle) states. -/
theorem C9_witness :
    LibIdle libInit ∧ P3Idle p3Init ∧
    (libStopManual libInit).1 = libInit ∧ (libDispose libInit).1 = libInit ∧
    (p3Stop true p3Init).1 = p3Init ∧
    (p3Dispose p3Init).1 = { p3Init with disposed := true } := by
  have hL : LibIdle libInit := ⟨rfl, rfl, rfl, rfl, rfl, rfl, rfl, rfl⟩
  have hP : P3Idle p3Init := ⟨rfl, rfl, rfl, rfl, rfl, rfl, rfl⟩
  exact ⟨hL, hP, (C9_idempotent_teardown.1 libInit hL).1,
    (C9_idempotent_teardown.1 libInit hL).2,
    (C9_idempotent_teardown.2 p3Init hP).1,
    (C9_idempotent_teardown.2 p3Init hP).2.2.1⟩
